import Mathlib

/-
Verification development for the jwt-auth repository.

Shallow embedding of the authentication core:
  * internal/auth/password.go        — JWT codec (JWTManager), token hashing
  * internal/domain                  — RefreshToken, Account, SecurityAuditLog models
  * internal/repository (part_007)   — RefreshTokenRepository over the refresh_tokens table
  * internal/usecase (part_017)      — AuthUsecase: SignUp, Login, RefreshToken, Logout
  * internal/middleware/auth.go      — bearer-token authorization middleware

Modelling conventions:
  * Go time.Time / time.Duration are modelled as Int seconds; time.Hour = 3600.
  * uuid.UUID values and token strings are Lean String.
  * Cryptographic primitives external to the repository (SHA-256 token hashing,
    bcrypt verification, HMAC-SHA256 signature verification, uuid.Parse) are
    oracles collected in Env; every theorem quantifies over them.
  * Base64/JSON decoding of a JWT compact serialization is the external
    golang-jwt machinery; it is modelled as a decode oracle
    String -> Option TokenView (none = undecodable, i.e. jwt.ErrTokenMalformed).
  * Go pointers that can be nil (UsedAt, RevokedAt, UserAgent, IPAddress)
    are Option values.
  * SQL UPDATE result.RowsAffected follows the go-sql-driver/mysql default:
    it reports the number of rows actually CHANGED by the update.
-/

deriving instance DecidableEq for Except

namespace JwtAuth

/-- One hour in seconds (Go time.Hour). -/
def timeHour : Int := 3600

/-- Splitting a character list at every occurrence of a separator, keeping
empty pieces; the recursion underlying Go strings.Split for a one-character
separator. -/
def splitChars (sep : Char) : List Char → List (List Char)
  | [] => [[]]
  | c :: cs =>
    let rest := splitChars sep cs
    if c = sep then [] :: rest
    else
      match rest with
      | [] => [[c]]
      | r :: rs => (c :: r) :: rs

/-- Go strings.Split(s, sep) for a one-character separator: n occurrences of
the separator yield n+1 (possibly empty) pieces. -/
def goSplit (s : String) (sep : Char) : List String :=
  (splitChars sep s.data).map (fun cs => String.mk cs)

/-- JWTConfig from internal/auth/password.go. -/
structure JWTConfig where
  accessTokenSecret : String
  refreshTokenSecret : String
  accessTokenExpiry : Int
  refreshTokenExpiry : Int
  issuer : String
  audience : List String
deriving Repr, DecidableEq

/-- NewJWTManager: fills the default expiries (1 hour access, 30 days refresh)
when a configured expiry is zero, and returns the resulting configuration. -/
def NewJWTManager (config : JWTConfig) : JWTConfig :=
  let c1 :=
    if config.accessTokenExpiry = 0 then
      { config with accessTokenExpiry := timeHour }
    else config
  if c1.refreshTokenExpiry = 0 then
    { c1 with refreshTokenExpiry := timeHour * 24 * 30 }
  else c1

/-- Decoded view of a JWT: the header alg plus the claim set obtained by the
golang-jwt base64/JSON decoding. The custom claims of both token kinds
(account_id, email for access; token_id, account_id for refresh) and the
registered claims are fields; absent claims decode to the defaults. -/
structure TokenView where
  alg : String
  accountId : String := ""
  email : String := ""
  tokenId : String := ""
  exp : Option Int := none
  iat : Option Int := none
  nbf : Option Int := none
  iss : String := ""
  sub : String := ""
  aud : List String := []
  jti : String := ""
deriving Repr, DecidableEq

/-- Failure kinds of token validation. Each constructor corresponds to one
error message template produced by JWTManager.validateToken or by the custom
claim checks of ValidateAccessToken / ValidateRefreshToken; the Go message
text is recorded in the comment of the contains* predicates below. -/
inductive TokenErr where
  /-- invalid [token] structure: expected 3 parts, got n -/
  | badStructure (n : Nat)
  /-- invalid [token]: part i is empty -/
  | emptyPart
  /-- [token] is malformed (jwt.ErrTokenMalformed: undecodable part) -/
  | malformed
  /-- [token] validation failed: signing method (alg) is unavailable
  (header alg is not a registered signing method) -/
  | algUnavailable
  /-- [token] validation failed: ... invalid signing algorithm: alg (expected HS256) -/
  | invalidSigningAlg (alg : String)
  /-- none algorithm is not allowed (unreachable: the first keyfunc check
  already rejects every alg other than HS256) -/
  | noneAlgNotAllowed
  /-- [token] validation failed: ... unexpected signing method type -/
  | unexpectedMethodType (alg : String)
  /-- [token] signature verification failed (jwt.ErrTokenSignatureInvalid) -/
  | signatureInvalid
  /-- [token] has expired (jwt.ErrTokenExpired) -/
  | expired
  /-- [token] validation failed: token used before issued -/
  | usedBeforeIssued
  /-- [token] is not valid yet (jwt.ErrTokenNotValidYet) -/
  | notValidYet
  /-- missing account ID in claims -/
  | missingAccountId
  /-- missing email in claims -/
  | missingEmail
  /-- missing token ID in refresh token claims -/
  | missingTokenId
  /-- invalid issuer: expected x, got y -/
  | issuerMismatch
  /-- audience mismatch: token has x, expected exactly y -/
  | audienceMismatch
  /-- invalid account ID format / invalid token ID format (uuid.Parse failed) -/
  | badUUIDFormat
deriving Repr, DecidableEq

/-- Oracles for the cryptographic primitives the repository calls but does
not implement: SHA-256 hex token hashing (auth.HashToken), bcrypt password
verification (auth.VerifyPassword, argument order password then hash),
HMAC-SHA256 signature verification over a compact serialization with a
secret, and uuid.Parse success. -/
structure Env where
  hashToken : String → String
  verifyPassword : String → String → Bool
  hmacVerify : String → String → Bool
  uuidParse : String → Bool

/-- The signing methods registered by the golang-jwt/jwt/v5 library; a header
alg outside this list makes parsing fail before the keyfunc is invoked. -/
def registeredAlgs : List String :=
  ["HS256", "HS384", "HS512", "RS256", "RS384", "RS512",
   "ES256", "ES384", "ES512", "PS256", "PS384", "PS512", "EdDSA", "none"]

/-- The HMAC family methods (jwt.SigningMethodHMAC instances). -/
def isHMACMethod (alg : String) : Bool :=
  alg == "HS256" || alg == "HS384" || alg == "HS512"

/-- The keyfunc closure passed to jwt.ParseWithClaims in
JWTManager.validateToken: rejects every alg other than HS256, explicitly
rejects none/empty, checks the method is HMAC, then returns the secret. -/
def keyFunc (alg : String) (secret : String) : Except TokenErr String :=
  if alg ≠ "HS256" then .error (.invalidSigningAlg alg)
  else if alg = "none" ∨ alg = "" then .error .noneAlgNotAllowed
  else if ¬ isHMACMethod alg then .error (.unexpectedMethodType alg)
  else .ok secret

/-- JWTManager.validateToken plus the jwt.ParseWithClaims pipeline it calls.
The Bool of the result records whether the HMAC secret was consulted: the
only step that consumes the secret is Method.Verify, which runs only after
the keyfunc has returned the secret. Order of steps follows the source:
structural split check and empty-part check (validateToken itself), then
header/claims decoding, signing-method resolution, keyfunc, signature
verification and registered-claims validation (exp, iat, nbf) inside
jwt.ParseWithClaims v5. -/
def validateTokenTrace (env : Env) (secret : String) (decode : String → Option TokenView)
    (now : Int) (tokenString : String) : Except TokenErr Unit × Bool :=
  let parts := goSplit tokenString '.'
  if parts.length ≠ 3 then (.error (.badStructure parts.length), false)
  else if parts.any (fun p => p == "") then (.error .emptyPart, false)
  else
    match decode tokenString with
    | none => (.error .malformed, false)
    | some view =>
      if ¬ registeredAlgs.contains view.alg then (.error .algUnavailable, false)
      else
        match keyFunc view.alg secret with
        | .error e => (.error e, false)
        | .ok key =>
          if ¬ env.hmacVerify tokenString key then (.error .signatureInvalid, true)
          else if (match view.exp with | some e => decide (e ≤ now) | none => false) then
            (.error .expired, true)
          else if (match view.iat with | some i => decide (now < i) | none => false) then
            (.error .usedBeforeIssued, true)
          else if (match view.nbf with | some n => decide (now < n) | none => false) then
            (.error .notValidYet, true)
          else (.ok (), true)

/-- JWTManager.validateToken result without the secret-consultation trace. -/
def validateToken (env : Env) (secret : String) (decode : String → Option TokenView)
    (now : Int) (tokenString : String) : Except TokenErr Unit :=
  (validateTokenTrace env secret decode now tokenString).1

/-- sort.Strings: sorting a string slice in increasing lexicographic order. -/
def sortStrings (l : List String) : List String :=
  l.mergeSort (fun a b => decide (a ≤ b))

/-- audienceExactMatch from internal/auth/password.go: equal length and
elementwise equality after sorting both slices (an elementwise loop over two
equal-length slices is list equality). -/
def audienceExactMatch (tokenAud configAud : List String) : Bool :=
  if tokenAud.length ≠ configAud.length then false
  else sortStrings tokenAud == sortStrings configAud

/-- JWTManager.validateStandardClaims: exact issuer match, then — when the
configured audience list is non-empty — exact multiset audience match via
audienceExactMatch. -/
def validateStandardClaims (cfg : JWTConfig) (issuer : String) (audience : List String) :
    Except TokenErr Unit :=
  if issuer ≠ cfg.issuer then .error .issuerMismatch
  else if cfg.audience.length > 0 ∧ ¬ audienceExactMatch audience cfg.audience then
    .error .audienceMismatch
  else .ok ()

/-- JWTManager.ValidateAccessToken: common validation with the access secret,
then non-empty account_id, non-empty email, standard claims, and the
account_id UUID format check — in the order of the source. -/
def ValidateAccessToken (env : Env) (cfg : JWTConfig) (decode : String → Option TokenView)
    (now : Int) (tokenString : String) : Except TokenErr TokenView :=
  match (validateTokenTrace env cfg.accessTokenSecret decode now tokenString).1 with
  | .error e => .error e
  | .ok _ =>
    match decode tokenString with
    | none => .error .malformed
    | some claims =>
      if claims.accountId = "" then .error .missingAccountId
      else if claims.email = "" then .error .missingEmail
      else
        match validateStandardClaims cfg claims.iss claims.aud with
        | .error e => .error e
        | .ok _ =>
          if ¬ env.uuidParse claims.accountId then .error .badUUIDFormat
          else .ok claims

/-- JWTManager.ValidateRefreshToken: common validation with the refresh
secret, then non-empty token_id and account_id, their UUID format checks,
then the standard claims — in the order of the source. -/
def ValidateRefreshToken (env : Env) (cfg : JWTConfig) (decode : String → Option TokenView)
    (now : Int) (tokenString : String) : Except TokenErr TokenView :=
  match (validateTokenTrace env cfg.refreshTokenSecret decode now tokenString).1 with
  | .error e => .error e
  | .ok _ =>
    match decode tokenString with
    | none => .error .malformed
    | some claims =>
      if claims.tokenId = "" then .error .missingTokenId
      else if claims.accountId = "" then .error .missingAccountId
      else if ¬ env.uuidParse claims.tokenId then .error .badUUIDFormat
      else if ¬ env.uuidParse claims.accountId then .error .badUUIDFormat
      else
        match validateStandardClaims cfg claims.iss claims.aud with
        | .error e => .error e
        | .ok _ => .ok claims

/-- GenerateRefreshToken claim construction (internal/auth/password.go):
exp = now + configured refresh expiry, iat = nbf = now, jti = token_id. -/
def GenerateRefreshTokenClaims (cfg : JWTConfig) (accountId tokenId : String) (now : Int) :
    TokenView :=
  { alg := "HS256", tokenId := tokenId, accountId := accountId,
    exp := some (now + cfg.refreshTokenExpiry), iat := some now, nbf := some now,
    iss := cfg.issuer, sub := accountId, aud := cfg.audience, jti := tokenId }

/-- GenerateAccessToken claim construction (internal/auth/password.go):
exp = now + configured access expiry, iat = nbf = now, fresh jti. -/
def GenerateAccessTokenClaims (cfg : JWTConfig) (accountId email jti : String) (now : Int) :
    TokenView :=
  { alg := "HS256", accountId := accountId, email := email,
    exp := some (now + cfg.accessTokenExpiry), iat := some now, nbf := some now,
    iss := cfg.issuer, sub := accountId, aud := cfg.audience, jti := jti }

/-- domain.Account. -/
structure Account where
  id : String
  email : String
  name : String
  passwordHash : String
deriving Repr, DecidableEq

/-- domain.RefreshToken: one row of the refresh_tokens table. -/
structure RefreshTokenRec where
  id : String
  accountId : String
  tokenHash : String
  expiresAt : Int
  createdAt : Int
  usedAt : Option Int
  revokedAt : Option Int
  userAgent : Option String
  ipAddress : Option String
deriving Repr, DecidableEq

/-- domain.RefreshToken.IsValid: not expired (strictly), not used, not
revoked. -/
def isValidRec (rt : RefreshTokenRec) (now : Int) : Bool :=
  decide (now < rt.expiresAt) && rt.usedAt.isNone && rt.revokedAt.isNone

/-- domain.SecurityEventType: the closed set of audit event kinds. -/
inductive SecurityEventType where
  | tokenReuseDetected
  | allTokensRevoked
  | suspiciousLogin
  | passwordChanged
  | accountLocked
  | multipleFailedLogins
deriving Repr, DecidableEq

/-- domain.SecurityAuditLog (metadata is nil on every path the engine takes,
so it is omitted). -/
structure SecurityAuditLog where
  id : String
  accountId : String
  eventType : SecurityEventType
  eventDescription : String
  ipAddress : Option String
  userAgent : Option String
  createdAt : Int
deriving Repr, DecidableEq

/-- The string form of uuid.Nil, used as the account id of audit events
recorded for failures whose account cannot be determined. -/
def uuidNil : String := "00000000-0000-0000-0000-000000000000"

/-- Error of a repository operation. -/
inductive DBErr where
  | notFound
deriving Repr, DecidableEq

/-- RefreshTokenRepository.GetByTokenHash: SELECT ... WHERE token_hash = ?
(token_hash carries a unique index, so the first match is the row). -/
def getByTokenHash (table : List RefreshTokenRec) (tokenHash : String) :
    Option RefreshTokenRec :=
  table.find? (fun r => r.tokenHash == tokenHash)

/-- The row set produced by UPDATE refresh_tokens SET used_at = now
WHERE id = ?: every row whose id matches gets used_at overwritten — the
statement carries no additional "AND used_at IS NULL" condition. -/
def markAsUsedTable (table : List RefreshTokenRec) (id : String) (now : Int) :
    List RefreshTokenRec :=
  table.map (fun r => if r.id = id then { r with usedAt := some now } else r)

/-- RefreshTokenRepository.MarkAsUsed: runs the unconditional UPDATE above
and returns domain.ErrNotFound when RowsAffected is zero. RowsAffected
follows the go-sql-driver/mysql default of counting rows whose stored value
actually changed. -/
def MarkAsUsed (table : List RefreshTokenRec) (id : String) (now : Int) :
    Except DBErr Unit × List RefreshTokenRec :=
  let changed := (table.filter (fun r => r.id == id && !(r.usedAt == some now))).length
  (if changed = 0 then .error .notFound else .ok (), markAsUsedTable table id now)

/-- The row set produced by UPDATE refresh_tokens SET revoked_at = now
WHERE id = ?: every row whose id matches gets revoked_at overwritten — no
"AND revoked_at IS NULL" condition. -/
def revokeTable (table : List RefreshTokenRec) (id : String) (now : Int) :
    List RefreshTokenRec :=
  table.map (fun r => if r.id = id then { r with revokedAt := some now } else r)

/-- RefreshTokenRepository.Revoke: the unconditional UPDATE above plus the
ErrNotFound check on RowsAffected, like MarkAsUsed. -/
def Revoke (table : List RefreshTokenRec) (id : String) (now : Int) :
    Except DBErr Unit × List RefreshTokenRec :=
  let changed := (table.filter (fun r => r.id == id && !(r.revokedAt == some now))).length
  (if changed = 0 then .error .notFound else .ok (), revokeTable table id now)

/-- RefreshTokenRepository.RevokeByAccountID: UPDATE ... SET revoked_at = now
WHERE account_id = ? AND revoked_at IS NULL; no RowsAffected check. -/
def revokeByAccountIDTable (table : List RefreshTokenRec) (accountId : String) (now : Int) :
    List RefreshTokenRec :=
  table.map (fun r =>
    if r.accountId = accountId ∧ r.revokedAt = none then { r with revokedAt := some now }
    else r)

/-- The engine state: the accounts table, the refresh_tokens table, and the
append-only security_audit_logs table. -/
structure AuthState where
  accounts : List Account
  refreshTokens : List RefreshTokenRec
  auditLogs : List SecurityAuditLog
deriving Repr, DecidableEq

/-- AccountRepository lookup by email as the AuthUsecase consumes it: absence
is the domain.ErrNotFound branch of Login/SignUp. -/
def findAccountByEmail (accounts : List Account) (email : String) : Option Account :=
  accounts.find? (fun a => a.email == email)

/-- AccountRepository lookup by id as the AuthUsecase consumes it. -/
def findAccountByID (accounts : List Account) (id : String) : Option Account :=
  accounts.find? (fun a => a.id == id)

/-- Error kinds surfaced by the AuthUsecase (domain/errors.go), plus a
catch-all for fmt.Errorf-wrapped internal failures. -/
inductive AuthErr where
  | emailAlreadyExists
  | invalidCredentials
  | invalidToken
  | tokenCompromised
  | internalErr
deriving Repr, DecidableEq

/-- usecase.AuthTokens. -/
structure AuthTokens where
  accessToken : String
  refreshToken : String
  expiresIn : Int
  account : Account
deriving Repr, DecidableEq

/-- The fresh values an engine call draws from outside (UUID v7 generation
and token signing happen in the codec/uuid libraries): the signed access and
refresh token strings, the refresh token id (its jti), and the audit row id. -/
structure FreshData where
  accessTokenString : String
  refreshTokenString : String
  refreshTokenId : String
  auditId : String

/-- AuthUsecase.logSecurityEvent followed by SecurityAuditLogRepository.Create:
converts empty user-agent/IP strings to NULL and appends one audit row; sink
failures are swallowed, so the append is modelled as succeeding. -/
def logSecurityEventAppend (st : AuthState) (auditId accountId : String)
    (eventType : SecurityEventType) (description userAgent ipAddress : String)
    (now : Int) : AuthState :=
  let uaPtr := if userAgent = "" then none else some userAgent
  let ipPtr := if ipAddress = "" then none else some ipAddress
  { st with auditLogs := st.auditLogs ++
      [{ id := auditId, accountId := accountId, eventType := eventType,
         eventDescription := description, ipAddress := ipPtr, userAgent := uaPtr,
         createdAt := now }] }

/-- AuthUsecase.generateTokens: generates the pair, stores the new refresh
record with expires_at = now + 30 days (the source hardcodes
time.Now().Add(30*24*time.Hour) — it does not consult
cfg.refreshTokenExpiry), and returns the pair with the password hash
stripped from the account and ExpiresIn hardcoded to 3600. -/
def generateTokensOp (env : Env) (cfg : JWTConfig) (st : AuthState) (account : Account)
    (userAgent ipAddress : String) (now : Int) (fresh : FreshData) :
    Except AuthErr AuthTokens × AuthState :=
  let _accessClaims := GenerateAccessTokenClaims cfg account.id account.email "" now
  let _refreshClaims := GenerateRefreshTokenClaims cfg account.id fresh.refreshTokenId now
  let uaPtr := if userAgent = "" then none else some userAgent
  let ipPtr := if ipAddress = "" then none else some ipAddress
  let storedToken : RefreshTokenRec :=
    { id := fresh.refreshTokenId, accountId := account.id,
      tokenHash := env.hashToken fresh.refreshTokenString,
      expiresAt := now + 30 * 24 * timeHour, createdAt := now,
      usedAt := none, revokedAt := none, userAgent := uaPtr, ipAddress := ipPtr }
  let st1 := { st with refreshTokens := st.refreshTokens ++ [storedToken] }
  (.ok { accessToken := fresh.accessTokenString,
         refreshToken := fresh.refreshTokenString,
         expiresIn := 3600,
         account := { account with passwordHash := "" } }, st1)

/-- usecase.LoginInput. -/
structure LoginInput where
  email : String
  password : String
  userAgent : String
  ipAddress : String

/-- AuthUsecase.Login. The third component instruments the call with the
number of auth.VerifyPassword invocations it performs (the source performs
none on the missing-account branch and exactly one otherwise). -/
def Login (env : Env) (cfg : JWTConfig) (st : AuthState) (input : LoginInput)
    (now : Int) (fresh : FreshData) :
    Except AuthErr AuthTokens × AuthState × Nat :=
  match findAccountByEmail st.accounts input.email with
  | none => (.error .invalidCredentials, st, 0)
  | some account =>
    if env.verifyPassword input.password account.passwordHash then
      let (res, st1) := generateTokensOp env cfg st account input.userAgent input.ipAddress now fresh
      (res, st1, 1)
    else (.error .invalidCredentials, st, 1)

/-- Whether err.Error() of a validation failure contains the substring
"none algorithm"; only the (dead) keyfunc message "none algorithm is not
allowed" does. -/
def containsNoneAlgorithmMsg : TokenErr → Bool
  | .noneAlgNotAllowed => true
  | _ => false

/-- Whether err.Error() contains "signature verification failed"; only the
message "[token] signature verification failed" does. -/
def containsSignatureVerificationFailedMsg : TokenErr → Bool
  | .signatureInvalid => true
  | _ => false

/-- Whether err.Error() contains "invalid signing algorithm"; only the
wrapped keyfunc message "invalid signing algorithm: alg (expected HS256)"
does. -/
def containsInvalidSigningAlgorithmMsg : TokenErr → Bool
  | .invalidSigningAlg _ => true
  | _ => false

/-- Whether err.Error() contains "malformed"; only the message
"[token] is malformed" does. -/
def containsMalformedMsg : TokenErr → Bool
  | .malformed => true
  | _ => false

/-- Whether err.Error() contains "expired"; only the message
"[token] has expired" does. -/
def containsExpiredMsg : TokenErr → Bool
  | .expired => true
  | _ => false

/-- The suspicious-error test of AuthUsecase.RefreshToken: strings.Contains
on "none algorithm", "signature verification failed", or
"invalid signing algorithm". -/
def isSuspiciousRefreshErr (e : TokenErr) : Bool :=
  containsNoneAlgorithmMsg e || containsSignatureVerificationFailedMsg e ||
    containsInvalidSigningAlgorithmMsg e

/-- AuthUsecase.RefreshToken: validate the presented refresh token, look the
record up by hash, detect reuse (used_at set) before the validity check,
then consume the record and issue a new pair. Follows part_017 line by
line. -/
def RefreshTokenOp (env : Env) (cfg : JWTConfig) (decode : String → Option TokenView)
    (st : AuthState) (refreshToken userAgent ipAddress : String) (now : Int)
    (fresh : FreshData) : Except AuthErr AuthTokens × AuthState :=
  match ValidateRefreshToken env cfg decode now refreshToken with
  | .error e =>
    let st1 :=
      if isSuspiciousRefreshErr e then
        logSecurityEventAppend st fresh.auditId uuidNil .suspiciousLogin
          "Invalid refresh token attempt" userAgent ipAddress now
      else st
    (.error .invalidToken, st1)
  | .ok claims =>
    let tokenHash := env.hashToken refreshToken
    match getByTokenHash st.refreshTokens tokenHash with
    | none => (.error .invalidToken, st)
    | some storedToken =>
      if storedToken.usedAt.isSome then
        let tokens1 := revokeByAccountIDTable st.refreshTokens storedToken.accountId now
        let st1 := logSecurityEventAppend { st with refreshTokens := tokens1 }
          fresh.auditId storedToken.accountId .tokenReuseDetected
          "Attempted reuse of used refresh token detected. All tokens have been revoked for security."
          userAgent ipAddress now
        (.error .tokenCompromised, st1)
      else if ¬ isValidRec storedToken now then (.error .invalidToken, st)
      else if ¬ env.uuidParse claims.accountId then (.error .internalErr, st)
      else
        match findAccountByID st.accounts claims.accountId with
        | none => (.error .invalidToken, st)
        | some account =>
          match MarkAsUsed st.refreshTokens storedToken.id now with
          | (.error _, table1) => (.error .internalErr, { st with refreshTokens := table1 })
          | (.ok _, table1) =>
            generateTokensOp env cfg { st with refreshTokens := table1 } account
              userAgent ipAddress now fresh

/-- AuthUsecase.Logout: hash the presented token, look the record up, treat
absence as success, and revoke the record otherwise. -/
def Logout (env : Env) (st : AuthState) (refreshToken : String) (now : Int) :
    Except AuthErr Unit × AuthState :=
  let tokenHash := env.hashToken refreshToken
  match getByTokenHash st.refreshTokens tokenHash with
  | none => (.ok (), st)
  | some storedToken =>
    match Revoke st.refreshTokens storedToken.id now with
    | (.error _, table1) => (.error .internalErr, { st with refreshTokens := table1 })
    | (.ok _, table1) => (.ok (), { st with refreshTokens := table1 })

/-- One line written through the labstack logger by the middleware (the
middleware has no repository handle: these lines are not audit rows). -/
structure LogLine where
  eventType : SecurityEventType
  description : String
  ipAddress : String
  userAgent : String
deriving Repr, DecidableEq

/-- middleware.logSuspiciousTokenAttempt: classify the validation error by
substring of its message and emit one warning log line for the suspicious
kinds; expiry and other ordinary failures produce nothing. -/
def logSuspiciousTokenAttempt (e : TokenErr) (ipAddress userAgent : String) : List LogLine :=
  if containsNoneAlgorithmMsg e then
    [{ eventType := .suspiciousLogin,
       description := "Attempted to use JWT with none algorithm (signature bypass attempt)",
       ipAddress := ipAddress, userAgent := userAgent }]
  else if containsSignatureVerificationFailedMsg e then
    [{ eventType := .suspiciousLogin,
       description := "JWT signature verification failed (possible token tampering)",
       ipAddress := ipAddress, userAgent := userAgent }]
  else if containsInvalidSigningAlgorithmMsg e then
    [{ eventType := .suspiciousLogin,
       description := "Invalid JWT signing algorithm attempted",
       ipAddress := ipAddress, userAgent := userAgent }]
  else if containsMalformedMsg e then
    [{ eventType := .suspiciousLogin,
       description := "Malformed JWT token (possible attack attempt)",
       ipAddress := ipAddress, userAgent := userAgent }]
  else []

/-- The user-visible message chosen by the middleware for a failed
validation. -/
def middlewareErrorMsg (e : TokenErr) : String :=
  if containsNoneAlgorithmMsg e then "invalid token: signature required"
  else if containsSignatureVerificationFailedMsg e then
    "invalid token: signature verification failed"
  else if containsMalformedMsg e then "invalid token: malformed token"
  else if containsExpiredMsg e then "token has expired"
  else "invalid or expired token"

/-- Outcome of the authorization middleware for a protected request. -/
inductive MiddlewareResult where
  | unauthorized (msg : String)
  | okAuth (accountId email : String)
deriving Repr, DecidableEq

/-- middleware.NewAuthMiddleware for a protected path: require an
Authorization header of the exact shape "Bearer token", validate the access
token, and on failure log the suspicious kinds. The middleware holds no
repository, so the state passes through untouched — its only output besides
the decision is the logger lines. -/
def AuthMiddlewareOp (env : Env) (cfg : JWTConfig) (decode : String → Option TokenView)
    (st : AuthState) (authHeader ipAddress userAgent : String) (now : Int) :
    MiddlewareResult × AuthState × List LogLine :=
  if authHeader = "" then (.unauthorized "missing authorization header", st, [])
  else
    match goSplit authHeader ' ' with
    | [scheme, tokenString] =>
      if scheme ≠ "Bearer" then (.unauthorized "invalid authorization header format", st, [])
      else
        match ValidateAccessToken env cfg decode now tokenString with
        | .error e =>
          (.unauthorized (middlewareErrorMsg e), st, logSuspiciousTokenAttempt e ipAddress userAgent)
        | .ok claims => (.okAuth claims.accountId claims.email, st, [])
    | _ => (.unauthorized "invalid authorization header format", st, [])

/-! Concrete fixtures used by counterexamples and witnesses. -/

/-- Concrete oracle environment: constant token hash, always-accepting
password verification, signature verification and uuid parser. -/
def env0 : Env :=
  { hashToken := fun _ => "h1", verifyPassword := fun _ _ => true,
    hmacVerify := fun _ _ => true, uuidParse := fun _ => true }

/-- Concrete oracle environment whose password verification always fails. -/
def envReject : Env :=
  { hashToken := fun _ => "h1", verifyPassword := fun _ _ => false,
    hmacVerify := fun _ _ => true, uuidParse := fun _ => true }

/-- Concrete configuration for the engine fixtures (empty audience: the
source skips the audience comparison when the configured list is empty). -/
def cfg1 : JWTConfig :=
  { accessTokenSecret := "access-secret-material-0123456789ab",
    refreshTokenSecret := "refresh-secret-material-0123456789a",
    accessTokenExpiry := 3600, refreshTokenExpiry := 3600,
    issuer := "auth", audience := [] }

/-- The empty engine state. -/
def stEmpty : AuthState := { accounts := [], refreshTokens := [], auditLogs := [] }

/-- Fresh values for fixture calls. -/
def fresh0 : FreshData :=
  { accessTokenString := "at.1.sig", refreshTokenString := "rt.1.sig",
    refreshTokenId := "tid-new-1", auditId := "aud-row-1" }

/-- A live refresh record (not used, not revoked, unexpired at small times). -/
def c9Rec : RefreshTokenRec :=
  { id := "id-1", accountId := "acct-1", tokenHash := "h1", expiresAt := 1000,
    createdAt := 0, usedAt := none, revokedAt := none, userAgent := none, ipAddress := none }

/-- A state holding exactly the live record c9Rec. -/
def c9St : AuthState := { accounts := [], refreshTokens := [c9Rec], auditLogs := [] }

/-- A record whose used_at is already set (and whose expiry is still in the
future at time 200). -/
def c3Record : RefreshTokenRec :=
  { id := "id-1", accountId := "acct-1", tokenHash := "h1", expiresAt := 1000,
    createdAt := 0, usedAt := some 100, revokedAt := none, userAgent := none, ipAddress := none }

/-! C3 — RefreshTokenRepository.MarkAsUsed. -/

/-- C3 counterexample: the claim says MarkAsUsed on a record whose used_at is
already non-null leaves that used_at unchanged; on the concrete table holding
a record with used_at = 100, calling MarkAsUsed at time 200 succeeds and
overwrites used_at to 200 — the UPDATE carries no "AND used_at IS NULL"
condition. -/
theorem markAsUsed_counterexample :
    c3Record.usedAt = some 100 ∧
    (MarkAsUsed [c3Record] "id-1" 200).1 = .ok () ∧
    (MarkAsUsed [c3Record] "id-1" 200).2.map (fun r => r.usedAt) = [some 200] := by
  decide

/-- C3 (amended): MarkAsUsed(id) sets used_at = now for every record with
that id, overwriting an already-set used_at rather than leaving it unchanged;
it returns ErrNotFound exactly when no stored value changes (in particular
when the record is absent, in which case the table is left unchanged). -/
theorem markAsUsed_overwrites (table : List RefreshTokenRec) (id : String) (now : Int) :
    (MarkAsUsed table id now).2.map (fun r => r.usedAt)
        = table.map (fun r => if r.id = id then some now else r.usedAt) ∧
    ((MarkAsUsed table id now).1 = .error .notFound ↔
        ∀ r ∈ table, r.id = id → r.usedAt = some now) ∧
    ((∀ r ∈ table, r.id ≠ id) → MarkAsUsed table id now = (.error .notFound, table)) := by
  refine ⟨?_, ?_, ?_⟩
  · simp only [MarkAsUsed, markAsUsedTable, List.map_map]
    apply List.map_congr_left
    intro r _
    by_cases h : r.id = id <;> simp [h]
  · by_cases hfil : table.filter (fun r => r.id == id && !(r.usedAt == some now)) = []
    · have hall : ∀ r ∈ table, r.id = id → r.usedAt = some now := by
        intro r hr hid
        have hthis := (List.filter_eq_nil_iff.mp hfil) r hr
        by_contra hneq
        exact hthis (by simp [hid, hneq])
      have herr : (MarkAsUsed table id now).1 = .error .notFound := by
        simp [MarkAsUsed, hfil]
      rw [herr]
      simpa using hall
    · have hne : (table.filter (fun r => r.id == id && !(r.usedAt == some now))).length ≠ 0 := by
        simpa [List.length_eq_zero] using hfil
      obtain ⟨r, hrmem⟩ := List.exists_mem_of_ne_nil _ hfil
      have hr := List.mem_filter.mp hrmem
      have hprop : r.id = id ∧ ¬ r.usedAt = some now := by
        have := hr.2
        simp only [Bool.and_eq_true, beq_iff_eq, Bool.not_eq_true'] at this
        exact ⟨this.1, by simpa using this.2⟩
      simp only [MarkAsUsed, hne, if_false, ite_false]
      constructor
      · intro h; exact absurd h (by simp [hne])
      · intro hall; exact absurd (hall r hr.1 hprop.1) hprop.2
  · intro hab
    have hfil : table.filter (fun r => r.id == id && !(r.usedAt == some now)) = [] := by
      rw [List.filter_eq_nil_iff]
      intro a ha
      simp [hab a ha]
    have htab : markAsUsedTable table id now = table := by
      unfold markAsUsedTable
      have hpt : ∀ r ∈ table, (if r.id = id then { r with usedAt := some now } else r) = r := by
        intro r hr; simp [hab r hr]
      rw [List.map_congr_left hpt]
      simp
    simp [MarkAsUsed, hfil, htab]

/-- C3 witness: the amended theorem applied to a concrete table that holds no
record with the requested id. -/
theorem markAsUsed_overwrites_witness :
    MarkAsUsed [c3Record] "id-absent" 200 = (.error .notFound, [c3Record]) :=
  (markAsUsed_overwrites [c3Record] "id-absent" 200).2.2 (by decide)

/-! C9 — AuthUsecase.Logout and RefreshTokenRepository.Revoke. -/

/-- C9 counterexample: the claim says the second of two sequential logout
calls is a no-op that leaves revoked_at unchanged; on the concrete state
holding one live record, the first logout at time 100 sets revoked_at = 100
and the second at time 200 succeeds but overwrites revoked_at to 200 — the
UPDATE of Revoke carries no "AND revoked_at IS NULL" condition. -/
theorem logout_counterexample :
    (Logout env0 c9St "T" 100).1 = .ok () ∧
    (Logout env0 c9St "T" 100).2.refreshTokens.map (fun r => r.revokedAt) = [some 100] ∧
    (Logout env0 (Logout env0 c9St "T" 100).2 "T" 200).1 = .ok () ∧
    (Logout env0 (Logout env0 c9St "T" 100).2 "T" 200).2.refreshTokens.map
        (fun r => r.revokedAt) = [some 200] := by
  decide

/-- C9 (amended): logout of a token whose record is absent returns success
and changes nothing; logout of a token whose record exists and whose
revoked_at differs from the current time returns success and overwrites
revoked_at of every record with that id to the current time — so a repeated
logout at a later time is not a no-op: it re-stamps revoked_at. -/
theorem logout_absent_ok_and_revoke_restamps (env : Env) (st : AuthState) (T : String) (now : Int) :
    (getByTokenHash st.refreshTokens (env.hashToken T) = none →
      Logout env st T now = (.ok (), st)) ∧
    (∀ rec, getByTokenHash st.refreshTokens (env.hashToken T) = some rec →
      rec.revokedAt ≠ some now →
      (Logout env st T now).1 = .ok () ∧
      (Logout env st T now).2.accounts = st.accounts ∧
      (Logout env st T now).2.auditLogs = st.auditLogs ∧
      (Logout env st T now).2.refreshTokens.map (fun r => r.revokedAt)
        = st.refreshTokens.map (fun r => if r.id = rec.id then some now else r.revokedAt)) := by
  constructor
  · intro h
    simp [Logout, h]
  · intro rec hf hne
    have hmem : rec ∈ st.refreshTokens := List.mem_of_find?_eq_some hf
    have hmemf : rec ∈ st.refreshTokens.filter
        (fun r => r.id == rec.id && !(r.revokedAt == some now)) := by
      rw [List.mem_filter]
      exact ⟨hmem, by simp [hne]⟩
    have hnz : (st.refreshTokens.filter
        (fun r => r.id == rec.id && !(r.revokedAt == some now))).length ≠ 0 := by
      intro h0
      rw [List.length_eq_zero] at h0
      rw [h0] at hmemf
      exact absurd hmemf (List.not_mem_nil _)
    have hrv : Revoke st.refreshTokens rec.id now
        = (.ok (), revokeTable st.refreshTokens rec.id now) := by
      simp [Revoke, hnz]
    simp only [Logout, hf, hrv]
    refine ⟨trivial, trivial, trivial, ?_⟩
    simp only [revokeTable, List.map_map]
    apply List.map_congr_left
    intro r _
    by_cases h : r.id = rec.id <;> simp [h]

/-- C9 witness: the amended theorem applied to the empty state (absence) and
to the concrete one-record state (successful revocation). -/
theorem logout_absent_ok_witness :
    Logout env0 stEmpty "T" 100 = (.ok (), stEmpty) ∧
    (Logout env0 c9St "T" 100).1 = .ok () := by
  constructor
  · exact (logout_absent_ok_and_revoke_restamps env0 stEmpty "T" 100).1 (by decide)
  · exact ((logout_absent_ok_and_revoke_restamps env0 c9St "T" 100).2 c9Rec
      (by decide) (by decide)).1

/-! C7 — record expiry vs configured refresh expiry. -/

/-- A concrete account for the engine fixtures. -/
def c7Account : Account :=
  { id := "acct-1", email := "alice@example.com", name := "Alice", passwordHash := "bcrypt-hash" }

/-- A manager configuration with REFRESH_TOKEN_EXPIRY set to one hour
(non-zero, so NewJWTManager keeps it). -/
def c7Config : JWTConfig :=
  NewJWTManager
    { accessTokenSecret := "access-secret-material-0123456789ab",
      refreshTokenSecret := "refresh-secret-material-0123456789a",
      accessTokenExpiry := timeHour, refreshTokenExpiry := timeHour,
      issuer := "auth", audience := [] }

/-- C7: with REFRESH_TOKEN_EXPIRY configured to one hour, the refresh record
persisted by generateTokens gets expires_at = issuance time + 30 days
(hardcoded), not issuance time + the configured duration — while the refresh
JWT itself carries exp = issuance time + the configured one hour, so the
stored record and the token it indexes disagree about expiry. -/
theorem generateTokens_ignores_configured_expiry :
    c7Config.refreshTokenExpiry = 3600 ∧
    (generateTokensOp env0 c7Config stEmpty c7Account "" "" 0 fresh0).2.refreshTokens.map
        (fun r => r.expiresAt) = [2592000] ∧
    (GenerateRefreshTokenClaims c7Config c7Account.id "tid-1" 0).exp = some 3600 ∧
    ¬ ((2592000 : Int) = 0 + c7Config.refreshTokenExpiry) := by
  decide

/-! C8 — AuthUsecase.Login on a missing account. -/

/-- A login attempt for an email matching no account. -/
def c8Input : LoginInput :=
  { email := "nobody@example.com", password := "Password123", userAgent := "", ipAddress := "" }

/-- The account and state for the wrong-password fixture. -/
def c8StA : AuthState := { accounts := [c7Account], refreshTokens := [], auditLogs := [] }

/-- A login attempt with the right email and a wrong password. -/
def c8InputA : LoginInput :=
  { email := "alice@example.com", password := "wrong", userAgent := "", ipAddress := "" }

/-- C8 counterexample: the claim says the missing-account path still performs
a password verification against a dummy hash; on the empty state the login
fails with InvalidCredentials after zero VerifyPassword invocations (the
instrumented count is 0). -/
theorem login_counterexample :
    Login env0 cfg1 stEmpty c8Input 0 fresh0 = (.error .invalidCredentials, stEmpty, 0) := by
  decide

/-- C8 (amended): a login whose email matches no account fails with
InvalidCredentials — the same error kind as the wrong-password case — but no
password verification is performed on the missing-account path, while the
wrong-password path performs exactly one. -/
theorem login_missing_account_no_dummy_verify (env : Env) (cfg : JWTConfig) (st : AuthState)
    (input : LoginInput) (now : Int) (fresh : FreshData) :
    (findAccountByEmail st.accounts input.email = none →
      Login env cfg st input now fresh = (.error .invalidCredentials, st, 0)) ∧
    (∀ account, findAccountByEmail st.accounts input.email = some account →
      env.verifyPassword input.password account.passwordHash = false →
      Login env cfg st input now fresh = (.error .invalidCredentials, st, 1)) := by
  constructor
  · intro h
    simp [Login, h]
  · intro account hf hv
    simp [Login, hf, hv]

/-- C8 witness: the amended theorem applied to the empty state (missing
account) and to a state whose password verification rejects (wrong
password). -/
theorem login_missing_account_no_dummy_verify_witness :
    Login envReject cfg1 stEmpty c8Input 0 fresh0 = (.error .invalidCredentials, stEmpty, 0) ∧
    Login envReject cfg1 c8StA c8InputA 0 fresh0 = (.error .invalidCredentials, c8StA, 1) := by
  constructor
  · exact (login_missing_account_no_dummy_verify envReject cfg1 stEmpty c8Input 0 fresh0).1
      (by decide)
  · exact (login_missing_account_no_dummy_verify envReject cfg1 c8StA c8InputA 0 fresh0).2
      c7Account (by decide) (by decide)

/-! C4 — algorithm confusion defense. -/

/-- Helper: any decodable token whose header alg differs from HS256 fails the
common validation with the secret-consuming signature step never executed. -/
theorem validateTokenTrace_non_hs256 (env : Env) (secret : String)
    (decode : String → Option TokenView) (now : Int) (T : String) (view : TokenView)
    (hd : decode T = some view) (hne : view.alg ≠ "HS256") :
    ∃ e, validateTokenTrace env secret decode now T = (.error e, false) := by
  unfold validateTokenTrace
  by_cases h1 : (goSplit T '.').length ≠ 3
  · exact ⟨.badStructure (goSplit T '.').length, by simp [h1]⟩
  · by_cases h2 : (goSplit T '.').any (fun p => p == "")
    · exact ⟨.emptyPart, by simp [h1, h2]⟩
    · by_cases h3 : view.alg ∈ registeredAlgs
      · exact ⟨.invalidSigningAlg view.alg, by simp [h1, h2, hd, h3, keyFunc, hne]⟩
      · exact ⟨.algUnavailable, by simp [h1, h2, hd, h3]⟩

/-- C4: a token whose header alg is none, empty, RS256, ES256, HS384 or
HS512 fails validation, the signature-verification step (the only consumer
of the HMAC secret) never runs, and the keyfunc returns an error instead of
the secret for the presented alg. -/
theorem algorithm_confusion_fails_before_secret (env : Env) (secret : String)
    (decode : String → Option TokenView) (now : Int) (T : String) (view : TokenView)
    (hd : decode T = some view)
    (ha : view.alg ∈ (["none", "", "RS256", "ES256", "HS384", "HS512"] : List String)) :
    (∃ e, (validateTokenTrace env secret decode now T).1 = .error e) ∧
    (validateTokenTrace env secret decode now T).2 = false ∧
    keyFunc view.alg secret = .error (.invalidSigningAlg view.alg) := by
  have ha2 : view.alg = "none" ∨ view.alg = "" ∨ view.alg = "RS256" ∨ view.alg = "ES256" ∨
      view.alg = "HS384" ∨ view.alg = "HS512" := by simpa using ha
  have hne : view.alg ≠ "HS256" := by
    rcases ha2 with h | h | h | h | h | h <;> simp [h]
  obtain ⟨e, he⟩ := validateTokenTrace_non_hs256 env secret decode now T view hd hne
  refine ⟨⟨e, by rw [he]⟩, by rw [he], ?_⟩
  simp [keyFunc, hne]

/-- A decode oracle presenting an alg none header. -/
def viewNoneAlg : TokenView := { alg := "none" }

/-- Decoder returning the alg none view for every token string. -/
def decodeNoneAlg : String → Option TokenView := fun _ => some viewNoneAlg

/-- C4 witness: the theorem applied to a concrete alg none token. -/
theorem algorithm_confusion_fails_before_secret_witness :
    (validateTokenTrace env0 "secret" decodeNoneAlg 0 "h.p.s").2 = false ∧
    keyFunc "none" "secret" = .error (.invalidSigningAlg "none") := by
  have h := algorithm_confusion_fails_before_secret env0 "secret" decodeNoneAlg 0 "h.p.s"
    viewNoneAlg (by decide) (by decide)
  exact ⟨h.2.1, h.2.2⟩

/-! C10 — access-token validation requires a non-empty email claim. -/

/-- C10: a token that passes the common validation (structure, signature,
expiry) with a non-empty account_id, whose issuer and audience also satisfy
the standard-claims check, but whose email claim is empty or absent, is
rejected by ValidateAccessToken with the missing-email error. -/
theorem access_token_requires_email (env : Env) (cfg : JWTConfig)
    (decode : String → Option TokenView) (now : Int) (T : String) (view : TokenView)
    (hd : decode T = some view)
    (hok : (validateTokenTrace env cfg.accessTokenSecret decode now T).1 = .ok ())
    (_hiss : view.iss = cfg.issuer)
    (_haud : validateStandardClaims cfg view.iss view.aud = .ok ())
    (hacc : view.accountId ≠ "")
    (hemail : view.email = "") :
    ValidateAccessToken env cfg decode now T = .error .missingEmail := by
  simp [ValidateAccessToken, hok, hd, hacc, hemail]

/-- A claims view that passes every structural and standard check but
carries an empty email. -/
def viewEmptyEmail : TokenView :=
  { alg := "HS256", accountId := "acct-1", email := "", exp := some 10,
    iss := "auth", aud := [] }

/-- Decoder returning the empty-email view for every token string. -/
def decodeEmptyEmail : String → Option TokenView := fun _ => some viewEmptyEmail

/-- C10 witness: the theorem applied to a concrete well-signed, unexpired,
issuer/audience-correct token with an empty email claim. -/
theorem access_token_requires_email_witness :
    ValidateAccessToken env0 cfg1 decodeEmptyEmail 0 "h.p.s" = .error .missingEmail :=
  access_token_requires_email env0 cfg1 decodeEmptyEmail 0 "h.p.s" viewEmptyEmail
    (by decide) (by decide) (by decide) (by decide) (by decide) (by decide)

/-! C5 — audience exact multiset match. -/

/-- Helper: the sorted copy is a permutation of the input. -/
theorem sortStrings_perm (l : List String) : (sortStrings l).Perm l :=
  List.mergeSort_perm l _

/-- Helper: the sorted copy is sorted for the string order. -/
theorem sortStrings_sorted (l : List String) : List.Sorted (· ≤ ·) (sortStrings l) := by
  have h := @List.sorted_mergeSort String (fun a b => decide (a ≤ b))
    (fun a b c hab hbc => by
      simp only [decide_eq_true_eq] at *
      exact le_trans hab hbc)
    (fun a b => by rcases le_total a b with h | h <;> simp [h])
    l
  exact h.imp (fun hab => of_decide_eq_true hab)

/-- Helper: audienceExactMatch accepts exactly the permutations — equal
length plus equal sorted copies is the same as being a permutation. -/
theorem audienceExactMatch_iff_perm (tokenAud configAud : List String) :
    audienceExactMatch tokenAud configAud = true ↔ tokenAud.Perm configAud := by
  unfold audienceExactMatch
  by_cases hl : tokenAud.length ≠ configAud.length
  · rw [if_pos hl]
    constructor
    · intro h
      exact absurd h (by simp)
    · intro hperm
      exact absurd hperm.length_eq hl
  · rw [if_neg hl, beq_iff_eq]
    constructor
    · intro hs
      exact (sortStrings_perm tokenAud).symm.trans (hs ▸ sortStrings_perm configAud)
    · intro hperm
      have h1 : (sortStrings tokenAud).Perm (sortStrings configAud) :=
        ((sortStrings_perm tokenAud).trans hperm).trans (sortStrings_perm configAud).symm
      exact List.eq_of_perm_of_sorted h1 (sortStrings_sorted _) (sortStrings_sorted _)

/-- C5: with a non-empty configured audience, the standard-claims check (at
matching issuer) passes exactly when the token audience equals the
configured audience as multisets; proper subsets, proper supersets and
different-multiplicity rearrangements all differ as multisets and hence
fail. -/
theorem audience_check_multiset_exact (cfg : JWTConfig) (tokenAud : List String)
    (hA : cfg.audience ≠ []) :
    validateStandardClaims cfg cfg.issuer tokenAud = .ok ()
      ↔ (tokenAud : Multiset String) = (cfg.audience : Multiset String) := by
  have hlen : cfg.audience.length > 0 := List.length_pos.mpr hA
  rw [Multiset.coe_eq_coe, ← audienceExactMatch_iff_perm]
  unfold validateStandardClaims
  by_cases hm : audienceExactMatch tokenAud cfg.audience = true
  · simp [hm]
  · simp [hm, hlen]

/-- A configuration with the two-element audience of the fixture. -/
def cfg5 : JWTConfig :=
  { accessTokenSecret := "access-secret-material-0123456789ab",
    refreshTokenSecret := "refresh-secret-material-0123456789a",
    accessTokenExpiry := 3600, refreshTokenExpiry := 3600,
    issuer := "auth", audience := ["svc-a", "svc-b"] }

/-- C5 witness: the theorem applied to the two-element configured audience
and the reordered token audience. -/
theorem audience_check_multiset_exact_witness :
    validateStandardClaims cfg5 cfg5.issuer ["svc-b", "svc-a"] = .ok () :=
  (audience_check_multiset_exact cfg5 ["svc-b", "svc-a"] (by decide)).mpr (by decide)

/-! C2 — invalid tokens never mutate the stores. -/

/-- Helper: the authorization middleware never changes the engine state — it
holds no repository handle, so the state component of its result is the
input state on every control path. -/
theorem authMiddleware_state_unchanged (env : Env) (cfg : JWTConfig)
    (decode : String → Option TokenView) (st : AuthState)
    (header ipAddress userAgent : String) (now : Int) :
    (AuthMiddlewareOp env cfg decode st header ipAddress userAgent now).2.1 = st := by
  unfold AuthMiddlewareOp
  repeat' split
  all_goals rfl

/-- C2: a refresh call that returns InvalidToken leaves the accounts store
and the refresh-token store exactly as they were, and may at most append one
audit event; a refresh whose validated token has no stored record returns
InvalidToken with the whole state (audit log included) unchanged; and an
authorize call never changes the state at all. -/
theorem refresh_invalid_token_no_mutation (env : Env) (cfg : JWTConfig)
    (decode : String → Option TokenView) (st : AuthState)
    (T userAgent ipAddress : String) (now : Int) (fresh : FreshData) :
    ((RefreshTokenOp env cfg decode st T userAgent ipAddress now fresh).1
        = .error .invalidToken →
      (RefreshTokenOp env cfg decode st T userAgent ipAddress now fresh).2.accounts
          = st.accounts ∧
      (RefreshTokenOp env cfg decode st T userAgent ipAddress now fresh).2.refreshTokens
          = st.refreshTokens ∧
      ((RefreshTokenOp env cfg decode st T userAgent ipAddress now fresh).2.auditLogs
          = st.auditLogs ∨
        ∃ e, (RefreshTokenOp env cfg decode st T userAgent ipAddress now fresh).2.auditLogs
          = st.auditLogs ++ [e])) ∧
    (∀ claims, ValidateRefreshToken env cfg decode now T = .ok claims →
      getByTokenHash st.refreshTokens (env.hashToken T) = none →
      RefreshTokenOp env cfg decode st T userAgent ipAddress now fresh
        = (.error .invalidToken, st)) ∧
    (∀ header, (AuthMiddlewareOp env cfg decode st header ipAddress userAgent now).2.1 = st) := by
  refine ⟨?_, ?_, fun header =>
    authMiddleware_state_unchanged env cfg decode st header ipAddress userAgent now⟩
  · intro hres
    cases hv : ValidateRefreshToken env cfg decode now T with
    | error e =>
      by_cases hs : isSuspiciousRefreshErr e
      · have hq : RefreshTokenOp env cfg decode st T userAgent ipAddress now fresh
            = (.error .invalidToken,
               logSecurityEventAppend st fresh.auditId uuidNil .suspiciousLogin
                 "Invalid refresh token attempt" userAgent ipAddress now) := by
          simp [RefreshTokenOp, hv, hs]
        rw [hq]
        exact ⟨rfl, rfl, .inr ⟨_, rfl⟩⟩
      · refine ⟨?_, ?_, .inl ?_⟩ <;> simp [RefreshTokenOp, hv, hs]
    | ok claims =>
      cases hf : getByTokenHash st.refreshTokens (env.hashToken T) with
      | none => refine ⟨?_, ?_, .inl ?_⟩ <;> simp [RefreshTokenOp, hv, hf]
      | some rec =>
        by_cases hu : rec.usedAt.isSome
        · exfalso
          simp [RefreshTokenOp, hv, hf, hu] at hres
        · by_cases hval : isValidRec rec now
          · by_cases hp : env.uuidParse claims.accountId
            · cases hacct : findAccountByID st.accounts claims.accountId with
              | none =>
                refine ⟨?_, ?_, .inl ?_⟩ <;>
                  simp [RefreshTokenOp, hv, hf, hu, hval, hp, hacct]
              | some account =>
                rcases hm : MarkAsUsed st.refreshTokens rec.id now with ⟨res, table1⟩
                cases res with
                | error db =>
                  exfalso
                  simp [RefreshTokenOp, hv, hf, hu, hval, hp, hacct, hm] at hres
                | ok u =>
                  exfalso
                  simp [RefreshTokenOp, hv, hf, hu, hval, hp, hacct, hm,
                    generateTokensOp] at hres
            · exfalso
              simp [RefreshTokenOp, hv, hf, hu, hval, hp] at hres
          · refine ⟨?_, ?_, .inl ?_⟩ <;> simp [RefreshTokenOp, hv, hf, hu, hval]
  · intro claims hv hf
    simp [RefreshTokenOp, hv, hf]

/-- Refresh claims view that passes every check of ValidateRefreshToken for
cfg1 at time 0. -/
def viewRefreshOK : TokenView :=
  { alg := "HS256", accountId := "acct-1", tokenId := "tid-1", exp := some 10,
    iss := "auth", aud := [] }

/-- Decoder returning the valid refresh view for every token string. -/
def decodeRefreshOK : String → Option TokenView := fun _ => some viewRefreshOK

/-- C2 witness: the theorem applied to the empty state — the validated token
has no stored record, the call returns InvalidToken and the state (audit log
included) is untouched. -/
theorem refresh_invalid_token_no_mutation_witness :
    RefreshTokenOp env0 cfg1 decodeRefreshOK stEmpty "a.b.c" "" "" 0 fresh0
      = (.error .invalidToken, stEmpty) ∧
    (RefreshTokenOp env0 cfg1 decodeRefreshOK stEmpty "a.b.c" "" "" 0 fresh0).2.refreshTokens
      = stEmpty.refreshTokens := by
  have h := refresh_invalid_token_no_mutation env0 cfg1 decodeRefreshOK stEmpty "a.b.c" "" "" 0
    fresh0
  have h2 := h.2.1 viewRefreshOK (by decide) (by decide)
  exact ⟨h2, (h.1 (by rw [h2])).2.1⟩

/-! C1 — reuse detection with family revocation. -/

/-- C1: when the presented refresh token validates and its stored record has
used_at set, the refresh call returns TokenCompromised, every record of that
account ends up with revoked_at set (the not-yet-revoked ones are revoked
now, already-revoked ones keep their stamp), exactly one audit event of kind
TOKEN_REUSE_DETECTED for that account is appended, and the accounts store is
untouched. No validity hypothesis on the record is needed: the reuse branch
runs before the expired/revoked validity check, as the witness (an expired
used record) shows. -/
theorem refresh_reuse_detected (env : Env) (cfg : JWTConfig)
    (decode : String → Option TokenView) (st : AuthState)
    (T userAgent ipAddress : String) (now : Int) (fresh : FreshData)
    (claims : TokenView) (rec : RefreshTokenRec)
    (hv : ValidateRefreshToken env cfg decode now T = .ok claims)
    (hf : getByTokenHash st.refreshTokens (env.hashToken T) = some rec)
    (hu : rec.usedAt.isSome) :
    (RefreshTokenOp env cfg decode st T userAgent ipAddress now fresh).1
        = .error .tokenCompromised ∧
    (∀ r ∈ (RefreshTokenOp env cfg decode st T userAgent ipAddress now fresh).2.refreshTokens,
      r.accountId = rec.accountId → r.revokedAt.isSome) ∧
    (∃ e, (RefreshTokenOp env cfg decode st T userAgent ipAddress now fresh).2.auditLogs
        = st.auditLogs ++ [e] ∧ e.eventType = .tokenReuseDetected ∧
        e.accountId = rec.accountId) ∧
    (RefreshTokenOp env cfg decode st T userAgent ipAddress now fresh).2.accounts
        = st.accounts := by
  have hre : RefreshTokenOp env cfg decode st T userAgent ipAddress now fresh
      = (.error .tokenCompromised,
         logSecurityEventAppend
           { st with refreshTokens := revokeByAccountIDTable st.refreshTokens rec.accountId now }
           fresh.auditId rec.accountId .tokenReuseDetected
           "Attempted reuse of used refresh token detected. All tokens have been revoked for security."
           userAgent ipAddress now) := by
    simp [RefreshTokenOp, hv, hf, hu]
  rw [hre]
  refine ⟨rfl, ?_, ⟨_, rfl, rfl, rfl⟩, rfl⟩
  intro r hr hacc
  have hr2 : r ∈ revokeByAccountIDTable st.refreshTokens rec.accountId now := hr
  rw [revokeByAccountIDTable, List.mem_map] at hr2
  obtain ⟨r0, hr0, rfl⟩ := hr2
  by_cases hc : r0.accountId = rec.accountId ∧ r0.revokedAt = none
  · simp [hc]
  · rw [if_neg hc]
    rw [if_neg hc] at hacc
    have hnn : r0.revokedAt ≠ none := fun hnone => hc ⟨hacc, hnone⟩
    simpa [Option.isSome_iff_ne_none] using hnn

/-- Refresh claims view that passes every check of ValidateRefreshToken for
cfg1 at time 100 (exp well in the future). -/
def viewRefresh2 : TokenView :=
  { alg := "HS256", accountId := "acct-1", tokenId := "tid-1", exp := some 1000,
    iss := "auth", aud := [] }

/-- Decoder returning viewRefresh2 for every token string. -/
def decodeRefresh2 : String → Option TokenView := fun _ => some viewRefresh2

/-- A used AND already-expired record (expires_at = 5 < now = 100): reuse
must win over the validity check. -/
def c1Rec : RefreshTokenRec :=
  { id := "id-used", accountId := "acct-1", tokenHash := "h1", expiresAt := 5,
    createdAt := 0, usedAt := some 3, revokedAt := none, userAgent := none, ipAddress := none }

/-- A live sibling record of the same account, to be family-revoked. -/
def c1Other : RefreshTokenRec :=
  { id := "id-live", accountId := "acct-1", tokenHash := "h2", expiresAt := 1000,
    createdAt := 0, usedAt := none, revokedAt := none, userAgent := none, ipAddress := none }

/-- State holding the used record and its live sibling. -/
def c1St : AuthState :=
  { accounts := [c7Account], refreshTokens := [c1Rec, c1Other], auditLogs := [] }

/-- C1 witness: the theorem applied to a concrete state whose matched record
is used and already expired — the call still answers TokenCompromised, which
shows the reuse check precedes the validity check. -/
theorem refresh_reuse_detected_witness :
    (RefreshTokenOp env0 cfg1 decodeRefresh2 c1St "a.b.c" "ua" "ip" 100 fresh0).1
      = .error .tokenCompromised :=
  (refresh_reuse_detected env0 cfg1 decodeRefresh2 c1St "a.b.c" "ua" "ip" 100 fresh0
    viewRefresh2 c1Rec (by decide) (by decide) (by decide)).1

/-! C6 — suspicious failures in the authorization middleware. -/

/-- Decoder presenting an RS256 header for every token string. -/
def decodeRS : String → Option TokenView := fun _ => some { alg := "RS256" }

/-- C6 counterexample: the claim says a SUSPICIOUS_LOGIN audit event is
appended for a wrong-algorithm authorize failure; on the concrete RS256
request the audit store stays empty — the middleware only emits a logger
line (it has no audit repository and records no sentinel account id). -/
theorem middleware_no_audit_event_counterexample :
    (AuthMiddlewareOp env0 cfg1 decodeRS stEmpty "Bearer a.b.c" "203.0.113.7" "curl" 0).2.1.auditLogs
      = [] ∧
    (AuthMiddlewareOp env0 cfg1 decodeRS stEmpty "Bearer a.b.c" "203.0.113.7" "curl" 0).2.2.map
      (fun l => l.eventType) = [.suspiciousLogin] := by
  decide

/-- C6 (amended): for an authorize failure whose kind is in the set
(none-algorithm, signature-invalid, wrong-algorithm, malformed), the
middleware emits exactly one SUSPICIOUS_LOGIN warning line carrying the
remote IP and the user-agent to the application logger; no audit event is
appended to the audit store (the state is unchanged) and no sentinel account
identifier is recorded. -/
theorem middleware_logs_suspicious (env : Env) (cfg : JWTConfig)
    (decode : String → Option TokenView) (st : AuthState)
    (header T ipAddress userAgent : String) (now : Int) (e : TokenErr)
    (hne : header ≠ "")
    (hsp : goSplit header ' ' = ["Bearer", T])
    (hv : ValidateAccessToken env cfg decode now T = .error e)
    (hkind : containsNoneAlgorithmMsg e ∨ containsSignatureVerificationFailedMsg e ∨
      containsInvalidSigningAlgorithmMsg e ∨ containsMalformedMsg e) :
    (AuthMiddlewareOp env cfg decode st header ipAddress userAgent now).2.1 = st ∧
    (AuthMiddlewareOp env cfg decode st header ipAddress userAgent now).2.2.map
        (fun l => l.eventType) = [.suspiciousLogin] ∧
    (AuthMiddlewareOp env cfg decode st header ipAddress userAgent now).2.2.map
        (fun l => l.ipAddress) = [ipAddress] ∧
    (AuthMiddlewareOp env cfg decode st header ipAddress userAgent now).2.2.map
        (fun l => l.userAgent) = [userAgent] := by
  have hmid : AuthMiddlewareOp env cfg decode st header ipAddress userAgent now
      = (.unauthorized (middlewareErrorMsg e), st,
         logSuspiciousTokenAttempt e ipAddress userAgent) := by
    simp [AuthMiddlewareOp, hne, hsp, hv]
  rw [hmid]
  refine ⟨rfl, ?_⟩
  rcases hkind with hk | hk | hk | hk <;> cases e <;>
    simp_all [logSuspiciousTokenAttempt, containsNoneAlgorithmMsg,
      containsSignatureVerificationFailedMsg, containsInvalidSigningAlgorithmMsg,
      containsMalformedMsg]

/-- C6 witness: the amended theorem applied to a concrete RS256 request. -/
theorem middleware_logs_suspicious_witness :
    (AuthMiddlewareOp env0 cfg1 decodeRS stEmpty "Bearer x.y.z" "198.51.100.9" "UA-1" 0).2.1
      = stEmpty :=
  (middleware_logs_suspicious env0 cfg1 decodeRS stEmpty "Bearer x.y.z" "x.y.z"
    "198.51.100.9" "UA-1" 0 (.invalidSigningAlg "RS256")
    (by decide) (by decide) (by decide) (by decide)).1

end JwtAuth
